import Mathlib

/-!
Verification of `src/lib/sqlite3_helpers.c` from dmaynor/agent-watch.

The repository holds one C function:

```
int aw_sqlite3_bind_text_transient(sqlite3_stmt *stmt, int col,
                                    const char *text, int len) {
    return sqlite3_bind_text(stmt, col, text, len, SQLITE_TRANSIENT);
}
```

Shallow embedding conventions:
- The wrapped library primitive `sqlite3_bind_text` is external to the
  repository, so the embedding is parametric in it: it is any function of a
  statement state, a column index, a text pointer, a byte length and a
  destructor (lifetime-policy) argument, returning a status code and the new
  statement state (stateful C is embedded by explicit state passing).
- A `const char *` argument is embedded as `TextPtr`: either the null pointer
  or a non-null pointer carrying its address and the bytes it points to at
  call time.
- The destructor argument of `sqlite3_bind_text` is a pointer-sized sentinel
  in C (`SQLITE_STATIC` is `(void *)0`, `SQLITE_TRANSIENT` is the sentinel
  value `-1` cast to a function pointer); it is embedded as an `Int`.
- A second, instrumented embedding of the same one-line body also records the
  sequence of library calls the body performs, so that frame and termination
  properties (exactly one call, arguments passed through unchanged, no other
  effect) can be stated.
- A small concrete instance `sqlite3_bind_text_model` of the wrapped
  primitive, modelled from the spec, makes the difference between the
  transient (copy now) and static (retain pointer) lifetime policies
  observable in the bound-value state.
-/

namespace AgentWatch

/-- Status codes of the wrapped library are plain C `int`s. -/
abbrev ResultCode := Int

/-- Success status code of the wrapped library (`SQLITE_OK` is 0). -/
def SQLITE_OK : ResultCode := 0

/-- Range-error status code of the wrapped library (`SQLITE_RANGE` is 25),
returned when the column index is out of range. -/
def SQLITE_RANGE : ResultCode := 25

/-- Destructor sentinel `SQLITE_STATIC` (`(void *)0`): the caller guarantees
the buffer outlives the statement, so the library may retain the pointer. -/
def SQLITE_STATIC : Int := 0

/-- Destructor sentinel `SQLITE_TRANSIENT` (the value `-1` cast to a function
pointer): the library must copy the supplied bytes immediately. -/
def SQLITE_TRANSIENT : Int := -1

/-- Contents of a text buffer, as a list of byte values. -/
abbrev Bytes := List Nat

/-- Embedding of a C `const char *` argument: null, or a non-null pointer with
its address and the bytes it points to at call time. -/
inductive TextPtr
  | null : TextPtr
  | mk (addr : Nat) (contents : Bytes) : TextPtr
deriving DecidableEq, Repr

/-- Calling convention of the wrapped primitive `sqlite3_bind_text`:
statement state, column index, text pointer, byte length, destructor
argument; returns the status code and the new statement state. -/
abbrev Sqlite3BindTextFn (Stmt : Type) :=
  Stmt → Int → TextPtr → Int → Int → ResultCode × Stmt

/-- Calling convention of the shim itself: the same arguments minus the
destructor, the same result. -/
abbrev ShimFn (Stmt : Type) :=
  Stmt → Int → TextPtr → Int → ResultCode × Stmt

/-- Embedding of `aw_sqlite3_bind_text_transient` from
`src/lib/sqlite3_helpers.c`, parametric in the external primitive
`sqlite3_bind_text` it wraps. The C body is the single statement
`return sqlite3_bind_text(stmt, col, text, len, SQLITE_TRANSIENT);`. -/
def aw_sqlite3_bind_text_transient {Stmt : Type}
    (sqlite3_bind_text : Sqlite3BindTextFn Stmt)
    (stmt : Stmt) (col : Int) (text : TextPtr) (len : Int) :
    ResultCode × Stmt :=
  sqlite3_bind_text stmt col text len SQLITE_TRANSIENT

/-- One call to the wrapped primitive, with the five argument values it
receives. -/
structure LibCall (Stmt : Type) where
  stmt : Stmt
  col : Int
  text : TextPtr
  len : Int
  destructor : Int

/-- Instrumented embedding of the same C body: alongside the result it records
the sequence of library calls the body performs. The body is the single
statement `return sqlite3_bind_text(stmt, col, text, len, SQLITE_TRANSIENT);`,
so the recorded sequence is that one call with those argument values. -/
def aw_sqlite3_bind_text_transient_traced {Stmt : Type}
    (sqlite3_bind_text : Sqlite3BindTextFn Stmt)
    (stmt : Stmt) (col : Int) (text : TextPtr) (len : Int) :
    (ResultCode × Stmt) × List (LibCall Stmt) :=
  (sqlite3_bind_text stmt col text len SQLITE_TRANSIENT,
   [⟨stmt, col, text, len, SQLITE_TRANSIENT⟩])

/-- Specification-side definition, following the spec's words: invoking the
wrapped primitive directly with the four arguments and the transient lifetime
policy supplied manually as the fifth argument. -/
def bind_text_transient_spec {Stmt : Type}
    (sqlite3_bind_text : Sqlite3BindTextFn Stmt)
    (stmt : Stmt) (col : Int) (text : TextPtr) (len : Int) :
    ResultCode × Stmt :=
  sqlite3_bind_text stmt col text len SQLITE_TRANSIENT

/-- Observable state of one bound parameter slot in the concrete model:
SQL null, an immediate copy of the bytes taken at bind time (transient
policy), or a retained pointer into caller-owned memory (static policy). -/
inductive BoundValue
  | nullVal : BoundValue
  | copied (bytes : Bytes) : BoundValue
  | retained (addr : Nat) : BoundValue
deriving DecidableEq, Repr

/-- Concrete model of a prepared statement: its parameter count and the
bindings established so far, as an association list from column index to
bound value. -/
structure StmtModel where
  paramCount : Nat
  bindings : List (Int × BoundValue)
deriving DecidableEq, Repr

/-- Replaces the binding of column `col` in an association list. -/
def setBinding (bs : List (Int × BoundValue)) (col : Int) (v : BoundValue) :
    List (Int × BoundValue) :=
  (col, v) :: bs.filter (fun p => p.1 != col)

/-- Looks up the bound value of column `col` in a statement model. -/
def getBound (stmt : StmtModel) (col : Int) : Option BoundValue :=
  stmt.bindings.lookup col

/-- Modelled from the spec: the wrapped primitive `sqlite3_bind_text`, which
is external to this repository (only the sqlite3 header is included by
`src/lib/sqlite3_helpers.c`). Per the spec, a column index out of the
statement's range yields the library's range error and leaves the state
unchanged; a null text pointer binds SQL null; otherwise the transient
destructor makes the library copy the supplied bytes immediately, while any
other destructor lets it retain the caller's pointer. Success returns the
library's success code. -/
def sqlite3_bind_text_model : Sqlite3BindTextFn StmtModel :=
  fun stmt col text len destructor =>
    if col < 1 ∨ (stmt.paramCount : Int) < col then
      (SQLITE_RANGE, stmt)
    else
      match text with
      | TextPtr.null =>
          (SQLITE_OK,
           { stmt with bindings := setBinding stmt.bindings col BoundValue.nullVal })
      | TextPtr.mk addr contents =>
          let v :=
            if destructor = SQLITE_TRANSIENT then
              BoundValue.copied (contents.take len.toNat)
            else
              BoundValue.retained addr
          (SQLITE_OK, { stmt with bindings := setBinding stmt.bindings col v })

/-- C1: for every statement handle, column index, text pointer and length,
and for every model of the wrapped primitive, the shim returns the identical
status code and leaves the statement in the identical bound-value observable
state as calling the wrapped primitive directly with the transient lifetime
policy supplied manually. -/
theorem shim_refines_direct_transient_call :
    ∀ (Stmt : Type) (sqlite3_bind_text : Sqlite3BindTextFn Stmt)
      (stmt : Stmt) (col : Int) (text : TextPtr) (len : Int),
      (aw_sqlite3_bind_text_transient sqlite3_bind_text stmt col text len).1
        = (bind_text_transient_spec sqlite3_bind_text stmt col text len).1
      ∧ (aw_sqlite3_bind_text_transient sqlite3_bind_text stmt col text len).2
        = (bind_text_transient_spec sqlite3_bind_text stmt col text len).2 :=
  fun _ _ _ _ _ _ => ⟨rfl, rfl⟩

/-- C2: for every input and every model of the wrapped primitive, the integer
the shim returns is exactly the status code of the underlying
`sqlite3_bind_text` call, passed to the caller unmodified; hence every code
the shim can return is a code the underlying call returned, so no new error
condition is introduced. -/
theorem shim_propagates_status_unmodified :
    ∀ (Stmt : Type) (sqlite3_bind_text : Sqlite3BindTextFn Stmt)
      (stmt : Stmt) (col : Int) (text : TextPtr) (len : Int),
      (aw_sqlite3_bind_text_transient sqlite3_bind_text stmt col text len).1
        = (sqlite3_bind_text stmt col text len SQLITE_TRANSIENT).1 :=
  fun _ _ _ _ _ _ => rfl

/-- C3: on every invocation the one fixed fifth argument the shim supplies to
the wrapped primitive is `SQLITE_TRANSIENT`; and in the concrete model of the
wrapped library that sentinel is exactly the copy-now instruction: binding a
non-null buffer through the shim at an in-range column stores an immediate
copy of the supplied bytes, not a retained pointer into caller memory. -/
theorem shim_supplies_transient_policy :
    (∀ (Stmt : Type) (sqlite3_bind_text : Sqlite3BindTextFn Stmt)
       (stmt : Stmt) (col : Int) (text : TextPtr) (len : Int),
       aw_sqlite3_bind_text_transient sqlite3_bind_text stmt col text len
         = sqlite3_bind_text stmt col text len SQLITE_TRANSIENT)
    ∧ (∀ (stmt : StmtModel) (col : Int) (addr : Nat) (contents : Bytes)
         (len : Int),
         1 ≤ col → col ≤ (stmt.paramCount : Int) →
         getBound
           (aw_sqlite3_bind_text_transient sqlite3_bind_text_model stmt col
             (TextPtr.mk addr contents) len).2 col
           = some (BoundValue.copied (contents.take len.toNat))) := by
  refine ⟨fun _ _ _ _ _ _ => rfl, fun stmt col addr contents len h1 h2 => ?_⟩
  have hrange : ¬ (col < 1 ∨ (stmt.paramCount : Int) < col) := by
    push_neg
    exact ⟨by omega, by omega⟩
  simp only [aw_sqlite3_bind_text_transient, sqlite3_bind_text_model,
    if_neg hrange, if_pos rfl, getBound, setBinding, List.lookup]
  simp

/-- Witness for C3: binding the two-byte buffer [104, 105] at column 1 of a
fresh two-parameter statement through the shim stores an immediate copy of
those bytes. -/
theorem shim_supplies_transient_policy_witness :
    getBound
      (aw_sqlite3_bind_text_transient sqlite3_bind_text_model
        ⟨2, []⟩ 1 (TextPtr.mk 7 [104, 105]) 2).2 1
      = some (BoundValue.copied [104, 105]) :=
  shim_supplies_transient_policy.2 ⟨2, []⟩ 1 7 [104, 105] 2
    (by decide) (by decide)

/-- C4: on every invocation the instrumented body performs exactly the single
wrapped call, with the shim's four arguments passed through unchanged and the
constant destructor as fifth argument; the result (status code and resulting
state) is exactly that of this single wrapped call, and it agrees with the
plain embedding, so the shim has no effect of its own. -/
theorem shim_frame_single_passthrough_call :
    ∀ (Stmt : Type) (sqlite3_bind_text : Sqlite3BindTextFn Stmt)
      (stmt : Stmt) (col : Int) (text : TextPtr) (len : Int),
      (aw_sqlite3_bind_text_transient_traced sqlite3_bind_text stmt col text len).2
        = [⟨stmt, col, text, len, SQLITE_TRANSIENT⟩]
      ∧ (aw_sqlite3_bind_text_transient_traced sqlite3_bind_text stmt col text len).1
          = sqlite3_bind_text stmt col text len SQLITE_TRANSIENT
      ∧ (aw_sqlite3_bind_text_transient_traced sqlite3_bind_text stmt col text len).1
          = aw_sqlite3_bind_text_transient sqlite3_bind_text stmt col text len :=
  fun _ _ _ _ _ _ => ⟨rfl, rfl, rfl⟩

/-- C5: the shim performs no validation and no recovery: for every input,
including the null text pointer and any length (negative lengths included),
it delegates unconditionally to the wrapped primitive, and the call it emits
has the same shape for every argument value, so it inspects, dereferences,
branches on and rejects nothing. -/
theorem shim_no_validation_unconditional_delegation :
    (∀ (Stmt : Type) (sqlite3_bind_text : Sqlite3BindTextFn Stmt)
       (stmt : Stmt) (col : Int) (text : TextPtr) (len : Int),
       aw_sqlite3_bind_text_transient sqlite3_bind_text stmt col text len
         = sqlite3_bind_text stmt col text len SQLITE_TRANSIENT
       ∧ (aw_sqlite3_bind_text_transient_traced sqlite3_bind_text stmt col text len).2
           = [⟨stmt, col, text, len, SQLITE_TRANSIENT⟩])
    ∧ (∀ (Stmt : Type) (sqlite3_bind_text : Sqlite3BindTextFn Stmt)
         (stmt : Stmt) (col : Int) (len : Int),
         aw_sqlite3_bind_text_transient sqlite3_bind_text stmt col TextPtr.null len
           = sqlite3_bind_text stmt col TextPtr.null len SQLITE_TRANSIENT
         ∧ aw_sqlite3_bind_text_transient sqlite3_bind_text stmt col TextPtr.null (-1)
             = sqlite3_bind_text stmt col TextPtr.null (-1) SQLITE_TRANSIENT) :=
  ⟨fun _ _ _ _ _ _ => ⟨rfl, rfl⟩, fun _ _ _ _ _ => ⟨rfl, rfl⟩⟩

/-- C6: the shim's external interface is exactly its signature: for any
statement type it takes a statement handle, a column index (C int), a text
pointer and a length (C int) and returns an integer status code together with
the passed-through state, and this is the wrapped primitive's own calling
convention minus the destructor argument. -/
theorem shim_interface_matches_signature :
    (∀ (Stmt : Type),
       ShimFn Stmt = (Stmt → Int → TextPtr → Int → ResultCode × Stmt))
    ∧ (∀ (Stmt : Type),
       Sqlite3BindTextFn Stmt = (Stmt → Int → TextPtr → Int → Int → ResultCode × Stmt))
    ∧ ResultCode = Int
    ∧ (∀ (Stmt : Type) (sqlite3_bind_text : Sqlite3BindTextFn Stmt),
       (aw_sqlite3_bind_text_transient sqlite3_bind_text : ShimFn Stmt)
         = fun stmt col text len =>
             sqlite3_bind_text stmt col text len SQLITE_TRANSIENT) :=
  ⟨fun _ => rfl, fun _ => rfl, rfl, fun _ _ => rfl⟩

/-- C8: the shim is deterministic: for every model of the wrapped primitive
(any function of its five arguments and the statement state), two invocations
with equal arguments on equal states return equal status codes and produce
equal resulting states. -/
theorem shim_deterministic :
    ∀ (Stmt : Type) (sqlite3_bind_text : Sqlite3BindTextFn Stmt)
      (stmt stmt' : Stmt) (col col' : Int) (text text' : TextPtr)
      (len len' : Int),
      stmt = stmt' → col = col' → text = text' → len = len' →
      (aw_sqlite3_bind_text_transient sqlite3_bind_text stmt col text len).1
        = (aw_sqlite3_bind_text_transient sqlite3_bind_text stmt' col' text' len').1
      ∧ (aw_sqlite3_bind_text_transient sqlite3_bind_text stmt col text len).2
        = (aw_sqlite3_bind_text_transient sqlite3_bind_text stmt' col' text' len').2 :=
  fun _ _ _ _ _ _ _ _ _ _ hs hc ht hl => by
    subst hs; subst hc; subst ht; subst hl; exact ⟨rfl, rfl⟩

/-- Witness for C8: at the concrete model, two invocations with the equal
concrete arguments on the equal concrete state agree on status code and
resulting state. -/
theorem shim_deterministic_witness :
    (aw_sqlite3_bind_text_transient sqlite3_bind_text_model
        ⟨1, []⟩ 1 (TextPtr.mk 3 [97]) 1).1
      = (aw_sqlite3_bind_text_transient sqlite3_bind_text_model
          ⟨1, []⟩ 1 (TextPtr.mk 3 [97]) 1).1
    ∧ (aw_sqlite3_bind_text_transient sqlite3_bind_text_model
        ⟨1, []⟩ 1 (TextPtr.mk 3 [97]) 1).2
      = (aw_sqlite3_bind_text_transient sqlite3_bind_text_model
          ⟨1, []⟩ 1 (TextPtr.mk 3 [97]) 1).2 :=
  shim_deterministic StmtModel sqlite3_bind_text_model
    ⟨1, []⟩ ⟨1, []⟩ 1 1 (TextPtr.mk 3 [97]) (TextPtr.mk 3 [97]) 1 1
    rfl rfl rfl rfl

/-- C9: the shim terminates whenever the wrapped call does: its instrumented
body performs exactly one library call (no loop, no recursion, no other
control flow), and its result is exactly the value that single tail call
returns, in agreement with the plain embedding, which is itself a total
function. -/
theorem shim_terminates_single_tail_call :
    ∀ (Stmt : Type) (sqlite3_bind_text : Sqlite3BindTextFn Stmt)
      (stmt : Stmt) (col : Int) (text : TextPtr) (len : Int),
      ((aw_sqlite3_bind_text_transient_traced sqlite3_bind_text stmt col text len).2).length = 1
      ∧ (aw_sqlite3_bind_text_transient_traced sqlite3_bind_text stmt col text len).1
          = sqlite3_bind_text stmt col text len SQLITE_TRANSIENT
      ∧ aw_sqlite3_bind_text_transient sqlite3_bind_text stmt col text len
          = sqlite3_bind_text stmt col text len SQLITE_TRANSIENT :=
  fun _ _ _ _ _ _ => ⟨rfl, rfl, rfl⟩

end AgentWatch
